import Mathlib

/-!
Verification development for the ADT Pulse Homebridge platform
(`src/lib/platform.ts`, class `ADTPulsePlatform`) together with its
configuration schema (`src/lib/schema.ts`, `platformConfig`).

The TypeScript class is shallowly embedded: the private instance fields
become a `PlatformState` record, every method becomes a state-passing
function, and each externally visible effect (registry add/update/remove
calls, log lines, timer sleeps, fired sub-tasks) is recorded as an event
in an emitted event list.  Asynchronous results coming back from the
portal client (login results, sync-check results, detector verdicts,
clock reads) are supplied as explicit oracle/environment records, since
the platform only ever observes their returned values.  The event loop is
single threaded, so one timer callback runs to completion between any two
observations of the shared state; a callback is therefore modelled as an
atomic state transformer.
-/

namespace AdtPulse

/-! ## Data model -/

/-- Gateway information payload (`state.data.gatewayInfo`); only the fields the
platform reads (`manufacturer`, `model`, `serialNumber`) are modelled, as
optional strings since the portal may omit them. -/
structure GatewayInfo where
  manufacturer : Option String
  model : Option String
  serialNumber : Option String
deriving DecidableEq

/-- Panel information payload (`state.data.panelInfo`); the platform reads
`manufacturerProvider` and `typeModel`. -/
structure PanelInfo where
  manufacturerProvider : Option String
  typeModel : Option String
deriving DecidableEq

/-- One portal-reported sensor from `state.data.sensorsInfo`: the fields read by
`unifyDevices` are `name`, `deviceType`, `zone`, and `deviceId`. -/
structure SensorInfo where
  name : String
  deviceType : String
  zone : Nat
  deviceId : Nat
deriving DecidableEq

/-- One configured sensor entry, per the `sensors` array of the `platformConfig`
schema: optional display-name override `name`, portal-facing `adtName`,
semantic `adtType`, and `adtZone`. -/
structure SensorConfigEntry where
  name : Option String
  adtName : String
  adtType : String
  adtZone : Nat
deriving DecidableEq

/-- HAP bookkeeping attached to a device record (`device.hap`). -/
structure HapInfo where
  category : String
  uuid : String
deriving DecidableEq

/-- A canonical device record as produced by `unifyDevices` and consumed by
`pollAccessories` / `addAccessory` / `updateAccessory`.  Fields that only some
record kinds carry (`serial`, `zone`) are optional, mirroring the TypeScript
object literals. -/
structure Device where
  id : String
  name : String
  type : String
  hap : HapInfo
  manufacturer : Option String
  model : Option String
  serial : Option String
  zone : Option Nat
deriving DecidableEq

/-- A platform accessory as kept in the `accessories` cache: the Homebridge
`platformAccessory` with its `displayName` and the device stored in its
`context`. -/
structure Accessory where
  displayName : String
  context : Device
deriving DecidableEq

/-- Observable effects of the platform, recorded in emission order: registry
calls (`registerPlatformAccessories`, `updatePlatformAccessories`,
`unregisterPlatformAccessories`), log lines by severity, the cooldown
`sleep`, the two fire-and-forget sub-task launches, the awaited
`fetchUpdatedInformation` call, the invocation of a detector callback, and a
marker for the `finally` block releasing an in-flight guard. -/
inductive Ev where
  | add (d : Device)
  | update (d : Device)
  | remove (uuid : String)
  | logError
  | logWarn
  | logInfo
  | logDebug
  | sleepCall (ms : Nat)
  | fireKeepAlive
  | fireSyncCheck
  | refreshCall
  | guardCleared
  | detectorInvoke (contentHash : String)
deriving DecidableEq

/-- Activity flags (`state.activity`), each guarding one concurrent operation. -/
structure Activity where
  isAdtKeepingAlive : Bool
  isAdtSyncChecking : Bool
  isLoggingIn : Bool
  isSyncing : Bool
deriving DecidableEq

/-- Cached portal data (`state.data`).  The panel/sensor status payloads are
modelled by their serialized form since the platform only hashes and stores
them (their structure is consumed by accessory handlers outside this core). -/
structure StateData where
  gatewayInfo : Option GatewayInfo
  panelInfo : Option PanelInfo
  panelStatus : Option String
  sensorsInfo : List SensorInfo
  sensorsStatus : List String
  syncCode : String
deriving DecidableEq

/-- Event counters (`state.eventCounters`). -/
structure EventCounters where
  failedLogins : Nat
deriving DecidableEq

/-- The mutable platform instance state: activity flags, cached data, event
counters, the two sub-task last-run timestamps (`state.lastRunOn`, JavaScript
epoch milliseconds modelled as integers), the reported-hash list, the
accessory-handler keys (`#handlers`, an object keyed by device id), and the
accessories cache (`#accessories`). -/
structure PlatformState where
  activity : Activity
  data : StateData
  eventCounters : EventCounters
  lastRunOnAdtKeepAlive : Int
  lastRunOnAdtSyncCheck : Int
  reportedHashes : List String
  handlers : List String
  accessories : List Accessory
deriving DecidableEq

/-- Interval constants (`#constants.intervalTimestamps`), in milliseconds. -/
structure IntervalTimestamps where
  adtKeepAlive : Nat
  adtSyncCheck : Nat
  suspendSyncing : Nat
  synchronize : Nat
deriving DecidableEq

/-- Constants record (`#constants`). -/
structure Constants where
  intervalTimestamps : IntervalTimestamps
  maxLoginRetries : Nat
deriving DecidableEq

/-- Constants assigned in the constructor (platform lines 187-195).  The
assignment is a literal record: no configuration value (in particular not the
schema `speed` field) appears in it, and `#constants` is never written again. -/
def platformConstants : Constants :=
  { intervalTimestamps :=
      { adtKeepAlive := 538000
        adtSyncCheck := 3000
        suspendSyncing := 1800000
        synchronize := 1000 }
    maxLoginRetries := 3 }

/-! ## Change detector

The platform repeats one deduplication pattern six times (the portal-version
block inside `synchronize`, lines 487-497, and the five resource blocks of
`fetchUpdatedInformation`, lines 705-803):

  compute `contentHash = generateHash(JSON.stringify(payload))`;
  if `reportedHashes.find((r) => contentHash === r) === undefined` then invoke
  the category detector and, only when it reports the observation as new, push
  `contentHash` onto `reportedHashes`; otherwise do nothing.

`generateHash` lives in `src/lib/utility.ts`, which is not part of the
provided source, so the hash function is a parameter throughout; the
serialized payload string is likewise supplied directly (`JSON.stringify` is
external).  The detector verdict is an oracle boolean since it comes back
from an external async callback. -/

/-- One deduplication step.  Returns the new reported-hash list, whether the
detector callback was invoked at all, and whether it reported the observation
as newsworthy (in which case the hash was pushed). -/
def reportIfNew (hash : String → String) (reported : List String)
    (serialized : String) (detectorSays : Bool) :
    List String × Bool × Bool :=
  let contentHash := hash serialized
  if (reported.find? (fun r => contentHash == r)).isNone then
    if detectorSays then (reported ++ [contentHash], true, true)
    else (reported, true, false)
  else (reported, false, false)

/-- One observation fed to the detector over the process lifetime: the
serialized payload and the verdict its category detector would return. -/
structure DetectCall where
  serialized : String
  detectorSays : Bool
deriving DecidableEq

/-- Runs a sequence of deduplication steps, threading the reported-hash list,
exactly as the process does over its lifetime. -/
def runDetector (hash : String → String) : List String → List DetectCall → List String
  | reported, [] => reported
  | reported, c :: cs =>
      runDetector hash (reportIfNew hash reported c.serialized c.detectorSays).1 cs

/-- Number of calls in a run that produce a newsworthy notification whose
content hash is `h`. -/
def notifiedCount (hash : String → String) (reported : List String)
    (calls : List DetectCall) (h : String) : Nat :=
  match calls with
  | [] => 0
  | c :: cs =>
      let step := reportIfNew hash reported c.serialized c.detectorSays
      (if hash c.serialized = h ∧ step.2.2 = true then 1 else 0) +
        notifiedCount hash step.1 cs h

/-! ### Detector lemmas -/

/-- A hash already on the reported list stays on it across a step. -/
theorem reportIfNew_mem_mono (hash : String → String) (reported : List String)
    (s : String) (d : Bool) (a : String) (ha : a ∈ reported) :
    a ∈ (reportIfNew hash reported s d).1 := by
  unfold reportIfNew
  dsimp only
  split
  · split
    · exact List.mem_append_left _ ha
    · exact ha
  · exact ha

/-- When the content hash of the payload is already on the reported list, the
detector callback is not invoked. -/
theorem reportIfNew_not_invoked_of_mem (hash : String → String)
    (reported : List String) (s : String) (d : Bool)
    (hm : hash s ∈ reported) :
    (reportIfNew hash reported s d).2.1 = false := by
  unfold reportIfNew
  dsimp only
  split
  · rename_i hnone
    rw [Option.isNone_iff_eq_none, List.find?_eq_none] at hnone
    exact absurd (by simp : (hash s == hash s) = true) (hnone (hash s) hm)
  · rfl

/-- A step only notifies when its content hash was not yet reported. -/
theorem reportIfNew_notified_not_mem (hash : String → String)
    (reported : List String) (s : String) (d : Bool)
    (hn : (reportIfNew hash reported s d).2.2 = true) :
    hash s ∉ reported := by
  intro hm
  unfold reportIfNew at hn
  dsimp only at hn
  split at hn
  · rename_i hnone
    rw [Option.isNone_iff_eq_none, List.find?_eq_none] at hnone
    exact absurd (by simp : (hash s == hash s) = true) (hnone (hash s) hm)
  · simp at hn

/-- After a notifying step the content hash is on the reported list. -/
theorem reportIfNew_mem_of_notified (hash : String → String)
    (reported : List String) (s : String) (d : Bool)
    (hn : (reportIfNew hash reported s d).2.2 = true) :
    hash s ∈ (reportIfNew hash reported s d).1 := by
  unfold reportIfNew at hn ⊢
  by_cases hf : (List.find? (fun r => hash s == r) reported).isNone = true
  · by_cases hd : d = true
    · simp [hf, hd]
    · simp [hf, hd] at hn
  · simp [hf] at hn

/-- Hashes on the reported list survive any run of detector steps. -/
theorem runDetector_mem_mono (hash : String → String) (a : String) :
    ∀ (calls : List DetectCall) (reported : List String),
      a ∈ reported → a ∈ runDetector hash reported calls := by
  intro calls
  induction calls with
  | nil => intro reported ha; exact ha
  | cons c cs ih =>
      intro reported ha
      exact ih _ (reportIfNew_mem_mono hash reported c.serialized c.detectorSays a ha)

/-- Once a hash is on the reported list, no later call of a run notifies with
that hash. -/
theorem notifiedCount_eq_zero_of_mem (hash : String → String) (h : String) :
    ∀ (calls : List DetectCall) (reported : List String),
      h ∈ reported → notifiedCount hash reported calls h = 0 := by
  intro calls
  induction calls with
  | nil => intro reported _; rfl
  | cons c cs ih =>
      intro reported hm
      unfold notifiedCount
      dsimp only
      rw [ih _ (reportIfNew_mem_mono hash reported c.serialized c.detectorSays h hm)]
      split
      · rename_i hcond
        exact absurd (hcond.1 ▸ hm)
          (reportIfNew_notified_not_mem hash reported c.serialized c.detectorSays hcond.2)
      · rfl

/-- In any run of detector steps, a given content hash is notified at most
once. -/
theorem notifiedCount_le_one (hash : String → String) (h : String) :
    ∀ (calls : List DetectCall) (reported : List String),
      notifiedCount hash reported calls h ≤ 1 := by
  intro calls
  induction calls with
  | nil => intro reported; exact Nat.zero_le 1
  | cons c cs ih =>
      intro reported
      unfold notifiedCount
      dsimp only
      split
      · rename_i hcond
        have hmem : h ∈ (reportIfNew hash reported c.serialized c.detectorSays).1 :=
          hcond.1 ▸ reportIfNew_mem_of_notified hash reported c.serialized c.detectorSays hcond.2
        rw [notifiedCount_eq_zero_of_mem hash h cs _ hmem]
      · rw [Nat.zero_add]
        exact ih _

/-- C3: for every payload and every resource category, a given content hash of
the serialized payload triggers at most one detection notification over the
process lifetime.  Conjuncts: (i) along any sequence of deduplication steps,
starting from any reported-hash list, a given hash is reported as newsworthy
at most once; (ii) a payload whose content hash is already recorded does not
get its detection callback invoked at all; (iii) a notifying step records the
hash; (iv) recorded hashes are never removed, so (ii) applies to every later
observation of an identical serialized payload. -/
theorem synchronize_detector_notifies_at_most_once
    (hash : String → String) (reported : List String)
    (calls : List DetectCall) (h s : String) (d : Bool) :
    (notifiedCount hash reported calls h ≤ 1)
    ∧ (hash s ∈ reported → (reportIfNew hash reported s d).2.1 = false)
    ∧ ((reportIfNew hash reported s d).2.2 = true →
        hash s ∈ (reportIfNew hash reported s d).1)
    ∧ (h ∈ reported → h ∈ runDetector hash reported calls) := by
  refine ⟨notifiedCount_le_one hash h calls reported, ?_, ?_, ?_⟩
  · exact reportIfNew_not_invoked_of_mem hash reported s d
  · exact reportIfNew_mem_of_notified hash reported s d
  · exact runDetector_mem_mono hash h calls reported

/-- Witness for C3 at concrete inputs: with the identity hash, a reported list
already holding `"pv"`, and two further observations of `"pv"`, the count is
at most one, the callback is not invoked again, a notifying step on a fresh
state records its hash, and the recorded hash survives the run. -/
theorem synchronize_detector_notifies_at_most_once_witness :
    (notifiedCount (fun x => x) ["pv"]
        [⟨"pv", true⟩, ⟨"pv", true⟩] "pv" ≤ 1)
    ∧ (reportIfNew (fun x => x) ["pv"] "pv" true).2.1 = false
    ∧ ((reportIfNew (fun x => x) [] "pv" true).2.2 = true →
        "pv" ∈ (reportIfNew (fun x => x) [] "pv" true).1)
    ∧ "pv" ∈ runDetector (fun x => x) ["pv"] [⟨"pv", true⟩, ⟨"pv", true⟩] := by
  refine ⟨?_, ?_, ?_, ?_⟩
  · exact (synchronize_detector_notifies_at_most_once (fun x => x) ["pv"]
      [⟨"pv", true⟩, ⟨"pv", true⟩] "pv" "pv" true).1
  · exact (synchronize_detector_notifies_at_most_once (fun x => x) ["pv"]
      [⟨"pv", true⟩, ⟨"pv", true⟩] "pv" "pv" true).2.1 (by decide)
  · exact (synchronize_detector_notifies_at_most_once (fun x => x) []
      [⟨"pv", true⟩, ⟨"pv", true⟩] "pv" "pv" true).2.2.1
  · exact (synchronize_detector_notifies_at_most_once (fun x => x) ["pv"]
      [⟨"pv", true⟩, ⟨"pv", true⟩] "pv" "pv" true).2.2.2 (by decide)

/-! ## Accessory registry operations

Methods `addAccessory` (lines 310-348), `updateAccessory` (lines 359-391),
`removeAccessory` (lines 402-413) and `pollAccessories` (lines 924-935).
`findIndexWithValue` from `src/lib/utility.ts` (not in the provided source)
returns the first index and value satisfying the predicate, index `-1` and
`undefined` when absent; it is embedded via `List.findIdx?` / `List.find?`,
and the failure test `index < 0 || value === undefined` becomes the `none`
branch.  Registry calls and log lines are emitted as events. -/

/-- Method `addAccessory`: refuse (with an error log) a device whose hap uuid
is already cached; otherwise build the platform accessory, create the handler
keyed by `device.id` when absent, push the accessory, and register it. -/
def addAccessory (s : PlatformState) (device : Device) : PlatformState × List Ev :=
  if (s.accessories.findIdx? (fun accessory => device.hap.uuid == accessory.context.hap.uuid)).isSome
  then
    (s, [Ev.logError])
  else
    let typedAccessory : Accessory := { displayName := device.name, context := device }
    let s1 := if s.handlers.contains device.id then s
              else { s with handlers := s.handlers ++ [device.id] }
    ({ s1 with accessories := s1.accessories ++ [typedAccessory] },
     [Ev.logInfo, Ev.add device])

/-- Method `updateAccessory`: locate the cached accessory with the same hap
uuid; when missing, log a warning and return; otherwise overwrite its context
and display name, create the handler when absent, write it back at its index,
and issue the registry update. -/
def updateAccessory (s : PlatformState) (device : Device) : PlatformState × List Ev :=
  match s.accessories.findIdx? (fun accessory => device.hap.uuid == accessory.context.hap.uuid),
        s.accessories.find? (fun accessory => device.hap.uuid == accessory.context.hap.uuid) with
  | some index, some value =>
      let value1 := { value with context := device, displayName := device.name }
      let s1 := if s.handlers.contains device.id then s
                else { s with handlers := s.handlers ++ [device.id] }
      ({ s1 with accessories := s1.accessories.set index value1 },
       [Ev.logDebug, Ev.update device])
  | _, _ => (s, [Ev.logWarn])

/-- Method `removeAccessory`: keep only cache entries with a different hap
uuid and unregister the accessory. -/
def removeAccessory (s : PlatformState) (accessory : Accessory) : PlatformState × List Ev :=
  let kept := s.accessories.filter
    (fun existingAccessory => existingAccessory.context.hap.uuid != accessory.context.hap.uuid)
  ({ s with accessories := kept },
   [Ev.logInfo, Ev.remove accessory.context.hap.uuid])

/-- Method `pollAccessories`: for each device in order, update when an
accessory with its hap uuid is cached, add otherwise. -/
def pollAccessories : PlatformState → List Device → PlatformState × List Ev
  | s, [] => (s, [])
  | s, device :: rest =>
      let r :=
        if (s.accessories.findIdx? (fun accessory => device.hap.uuid == accessory.context.hap.uuid)).isSome
        then updateAccessory s device
        else addAccessory s device
      let r2 := pollAccessories r.1 rest
      (r2.1, r.2 ++ r2.2)

/-- Hap uuids of the cached accessories, in cache order. -/
def cachedUuids (s : PlatformState) : List String :=
  s.accessories.map (fun accessory => accessory.context.hap.uuid)

/-- Registry calls among the emitted events (add, update and remove calls,
with log lines, sleeps and markers filtered out). -/
def registryCalls (evs : List Ev) : List Ev :=
  evs.filter (fun e =>
    match e with
    | Ev.add _ => true
    | Ev.update _ => true
    | Ev.remove _ => true
    | _ => false)

/-! ### Registry lemmas -/

/-- Setting the slot that a successful predicate search found, with a value
that agrees with every predicate-satisfying element under a projection, leaves
the projected list unchanged. -/
theorem set_found_map_eq {α β : Type _} (g : α → β) (p : α → Bool) (w : α)
    (hg : ∀ x, p x = true → g w = g x) :
    ∀ (l : List α) (i : Nat) (v : α), l.findIdx? p = some i → l.find? p = some v →
      (l.set i w).map g = l.map g := by
  intro l
  induction l with
  | nil => intro i v h _; simp at h
  | cons a t ih =>
      intro i v hidx hfind
      rw [List.findIdx?_cons] at hidx
      by_cases hpa : p a = true
      · rw [if_pos hpa] at hidx
        cases hidx
        simp only [List.set, List.map_cons]
        rw [hg a hpa]
      · have hpa' : p a = false := by simpa using hpa
        rw [if_neg hpa] at hidx
        rw [List.findIdx?_succ] at hidx
        rcases Option.map_eq_some'.mp hidx with ⟨j, hj, rfl⟩
        rw [List.find?] at hfind
        rw [hpa'] at hfind
        simp only [List.set, List.map_cons]
        rw [ih j v hj hfind]

/-- Membership of a hap uuid in the cache matches a successful `findIdx?`. -/
theorem findIdx_isSome_iff_mem_cachedUuids (s : PlatformState) (u : String) :
    (s.accessories.findIdx? (fun accessory => u == accessory.context.hap.uuid)).isSome = true
      ↔ u ∈ cachedUuids s := by
  rw [List.findIdx?_isSome, List.any_eq_true]
  unfold cachedUuids
  constructor
  · rintro ⟨a, ha, hpa⟩
    exact List.mem_map.mpr ⟨a, ha, (beq_iff_eq.mp hpa).symm⟩
  · intro hm
    rcases List.mem_map.mp hm with ⟨a, ha, hu⟩
    exact ⟨a, ha, beq_iff_eq.mpr hu.symm⟩

/-- Adding a device whose hap uuid is not cached emits exactly the info log
and the register call, and appends the packaged accessory to the cache. -/
theorem addAccessory_fresh (s : PlatformState) (d : Device)
    (h : d.hap.uuid ∉ cachedUuids s) :
    (addAccessory s d).2 = [Ev.logInfo, Ev.add d]
    ∧ cachedUuids (addAccessory s d).1 = cachedUuids s ++ [d.hap.uuid] := by
  have hidx : (s.accessories.findIdx?
      (fun accessory => d.hap.uuid == accessory.context.hap.uuid)).isSome = false := by
    rw [Bool.eq_false_iff]
    intro hs
    exact h ((findIdx_isSome_iff_mem_cachedUuids s d.hap.uuid).mp hs)
  unfold addAccessory
  rw [hidx]
  cases hc : s.handlers.contains d.id <;> simp [hc, cachedUuids]

/-- The cached uuid list is unchanged by `updateAccessory`, on every path. -/
theorem cachedUuids_updateAccessory (s : PlatformState) (d : Device) :
    cachedUuids ((updateAccessory s d).1) = cachedUuids s := by
  unfold updateAccessory
  cases hidx : s.accessories.findIdx?
      (fun accessory => d.hap.uuid == accessory.context.hap.uuid) with
  | none =>
      cases hfind : s.accessories.find?
          (fun accessory => d.hap.uuid == accessory.context.hap.uuid) <;> rfl
  | some index =>
      cases hfind : s.accessories.find?
          (fun accessory => d.hap.uuid == accessory.context.hap.uuid) with
      | none => rfl
      | some value =>
          have hset := set_found_map_eq (fun accessory => accessory.context.hap.uuid)
            (fun accessory => d.hap.uuid == accessory.context.hap.uuid)
            { value with context := d, displayName := d.name }
            (fun x hx => beq_iff_eq.mp hx) s.accessories index value hidx hfind
          cases hc : s.handlers.contains d.id <;>
            simpa [hc, cachedUuids] using hset

/-- Updating a device whose hap uuid is cached emits exactly the debug log and
the registry update call. -/
theorem updateAccessory_found (s : PlatformState) (d : Device)
    (h : d.hap.uuid ∈ cachedUuids s) :
    (updateAccessory s d).2 = [Ev.logDebug, Ev.update d] := by
  have hidx : (s.accessories.findIdx?
      (fun accessory => d.hap.uuid == accessory.context.hap.uuid)).isSome = true :=
    (findIdx_isSome_iff_mem_cachedUuids s d.hap.uuid).mpr h
  rcases Option.isSome_iff_exists.mp hidx with ⟨index, hif⟩
  have hfs : (s.accessories.find?
      (fun accessory => d.hap.uuid == accessory.context.hap.uuid)).isSome = true := by
    rw [List.find?_isSome]
    rw [List.findIdx?_isSome, List.any_eq_true] at hidx
    exact hidx
  rcases Option.isSome_iff_exists.mp hfs with ⟨value, hfv⟩
  unfold updateAccessory
  rw [hif, hfv]

/-- Updating a device with no cached accessory of the same hap uuid leaves the
whole platform state unchanged and emits only the warning log. -/
theorem updateAccessory_missing (s : PlatformState) (d : Device)
    (h : d.hap.uuid ∉ cachedUuids s) :
    updateAccessory s d = (s, [Ev.logWarn]) := by
  have hidx : (s.accessories.findIdx?
      (fun accessory => d.hap.uuid == accessory.context.hap.uuid)) = none := by
    cases hi : s.accessories.findIdx?
        (fun accessory => d.hap.uuid == accessory.context.hap.uuid) with
    | none => rfl
    | some i =>
        exact absurd ((findIdx_isSome_iff_mem_cachedUuids s d.hap.uuid).mp (by rw [hi]; rfl)) h
  unfold updateAccessory
  rw [hidx]

/-- No path of `addAccessory` emits a registry remove call. -/
theorem addAccessory_no_remove (s : PlatformState) (d : Device) (u : String) :
    Ev.remove u ∉ (addAccessory s d).2 := by
  unfold addAccessory
  split
  · simp
  · cases hc : s.handlers.contains d.id <;> simp [hc]

/-- No path of `updateAccessory` emits a registry remove call. -/
theorem updateAccessory_no_remove (s : PlatformState) (d : Device) (u : String) :
    Ev.remove u ∉ (updateAccessory s d).2 := by
  unfold updateAccessory
  cases hidx : s.accessories.findIdx?
      (fun accessory => d.hap.uuid == accessory.context.hap.uuid) with
  | none =>
      cases hfind : s.accessories.find?
          (fun accessory => d.hap.uuid == accessory.context.hap.uuid) <;> simp
  | some index =>
      cases hfind : s.accessories.find?
          (fun accessory => d.hap.uuid == accessory.context.hap.uuid) with
      | none => simp
      | some value => cases hc : s.handlers.contains d.id <;> simp [hc]

/-- Cached uuids are never lost by `addAccessory`. -/
theorem addAccessory_uuid_mono (s : PlatformState) (d : Device) (u : String)
    (h : u ∈ cachedUuids s) : u ∈ cachedUuids (addAccessory s d).1 := by
  unfold addAccessory
  split
  · exact h
  · cases hc : s.handlers.contains d.id <;>
      · simp only [hc]
        unfold cachedUuids at h ⊢
        simp only [List.map_append]
        exact List.mem_append_left _ h

/-- `pollAccessories` never emits a registry remove call. -/
theorem pollAccessories_no_remove :
    ∀ (ds : List Device) (s : PlatformState) (u : String),
      Ev.remove u ∉ (pollAccessories s ds).2 := by
  intro ds
  induction ds with
  | nil => intro s u; simp [pollAccessories]
  | cons d rest ih =>
      intro s u
      unfold pollAccessories
      dsimp only
      intro hm
      rcases List.mem_append.mp hm with hm | hm
      · split at hm
        · exact updateAccessory_no_remove s d u hm
        · exact addAccessory_no_remove s d u hm
      · split at hm <;> exact ih _ u hm

/-- Cached uuids are never lost by `pollAccessories`: accessories absent from
the device list are left in place. -/
theorem pollAccessories_uuid_mono :
    ∀ (ds : List Device) (s : PlatformState) (u : String),
      u ∈ cachedUuids s → u ∈ cachedUuids (pollAccessories s ds).1 := by
  intro ds
  induction ds with
  | nil => intro s u h; exact h
  | cons d rest ih =>
      intro s u h
      unfold pollAccessories
      dsimp only
      split
      · exact ih _ u (by rw [cachedUuids_updateAccessory]; exact h)
      · exact ih _ u (addAccessory_uuid_mono s d u h)

/-- First pass over a device list with pairwise-distinct uuids, none cached:
the registry calls are exactly one add per device, in order, and the cache
gains exactly the device uuids. -/
theorem pollAccessories_fresh :
    ∀ (ds : List Device) (s : PlatformState),
      (∀ d ∈ ds, d.hap.uuid ∉ cachedUuids s) →
      (ds.map (fun d => d.hap.uuid)).Nodup →
      registryCalls (pollAccessories s ds).2 = ds.map Ev.add
      ∧ cachedUuids (pollAccessories s ds).1
          = cachedUuids s ++ ds.map (fun d => d.hap.uuid) := by
  intro ds
  induction ds with
  | nil => intro s _ _; exact ⟨rfl, by simp [pollAccessories]⟩
  | cons d rest ih =>
      intro s hfresh hnodup
      have hd : d.hap.uuid ∉ cachedUuids s := hfresh d (List.mem_cons_self d rest)
      have hidx : (s.accessories.findIdx?
          (fun accessory => d.hap.uuid == accessory.context.hap.uuid)).isSome = false := by
        rw [Bool.eq_false_iff]
        intro hs
        exact hd ((findIdx_isSome_iff_mem_cachedUuids s d.hap.uuid).mp hs)
      have hadd := addAccessory_fresh s d hd
      rw [List.map_cons, List.nodup_cons] at hnodup
      have hfresh' : ∀ x ∈ rest, x.hap.uuid ∉ cachedUuids (addAccessory s d).1 := by
        intro x hx
        rw [hadd.2]
        intro hmem
        rcases List.mem_append.mp hmem with hmem | hmem
        · exact hfresh x (List.mem_cons_of_mem d hx) hmem
        · rcases List.mem_singleton.mp hmem with hx2
          exact hnodup.1 (hx2 ▸ List.mem_map_of_mem (fun y => y.hap.uuid) hx)
      have ihr := ih (addAccessory s d).1 hfresh' hnodup.2
      unfold pollAccessories
      rw [hidx]
      rw [if_neg Bool.false_ne_true]
      constructor
      · unfold registryCalls at ihr ⊢
        rw [List.filter_append, hadd.1, ihr.1]
        rfl
      · rw [ihr.2, hadd.2, List.map_cons, List.append_assoc]
        rfl

/-- Second pass over a device list all of whose uuids are cached: the registry
calls are exactly one update per device, in order, and the cached uuids are
unchanged. -/
theorem pollAccessories_cached :
    ∀ (ds : List Device) (s : PlatformState),
      (∀ d ∈ ds, d.hap.uuid ∈ cachedUuids s) →
      registryCalls (pollAccessories s ds).2 = ds.map Ev.update
      ∧ cachedUuids (pollAccessories s ds).1 = cachedUuids s := by
  intro ds
  induction ds with
  | nil => intro s _; exact ⟨rfl, rfl⟩
  | cons d rest ih =>
      intro s hmem
      have hd : d.hap.uuid ∈ cachedUuids s := hmem d (List.mem_cons_self d rest)
      have hidx : (s.accessories.findIdx?
          (fun accessory => d.hap.uuid == accessory.context.hap.uuid)).isSome = true :=
        (findIdx_isSome_iff_mem_cachedUuids s d.hap.uuid).mpr hd
      have hupd := updateAccessory_found s d hd
      have huu := cachedUuids_updateAccessory s d
      have ihr := ih (updateAccessory s d).1 (fun x hx => by rw [huu]; exact hmem x (List.mem_cons_of_mem d hx))
      unfold pollAccessories
      rw [hidx]
      rw [if_pos rfl]
      constructor
      · unfold registryCalls at ihr ⊢
        rw [List.filter_append, hupd, ihr.1]
        rfl
      · rw [ihr.2, huu]

/-! ### Concrete fixtures -/

/-- The state assigned in the constructor (lines 201-227): all activity flags
down, empty data slots, sync code `1-0-0`, counter zero, epoch timestamps,
no reported hashes, no handlers, no cached accessories. -/
def initialPlatformState : PlatformState :=
  { activity :=
      { isAdtKeepingAlive := false
        isAdtSyncChecking := false
        isLoggingIn := false
        isSyncing := false }
    data :=
      { gatewayInfo := none
        panelInfo := none
        panelStatus := none
        sensorsInfo := []
        sensorsStatus := []
        syncCode := "1-0-0" }
    eventCounters := { failedLogins := 0 }
    lastRunOnAdtKeepAlive := 0
    lastRunOnAdtSyncCheck := 0
    reportedHashes := []
    handlers := []
    accessories := [] }

/-- A sample canonical sensor device record used by witnesses. -/
def demoDevice : Device :=
  { id := "adt-device-5"
    name := "Front Door"
    type := "doorWindow"
    hap := { category := "SENSOR", uuid := "uuid-5" }
    manufacturer := some "ADT"
    model := some "sensor,doorWindow"
    serial := none
    zone := some 3 }

/-- C7: `pollAccessories` issues, for each device, an update when an accessory
with the same uuid is cached and an add otherwise, and never removes cached
accessories absent from the list; for a device list with pairwise-distinct
uuids none of which is cached, running it twice in a row yields exactly one
add per device (in order) on the first call and only updates, no duplicate
adds, on the second. -/
theorem pollAccessories_diff_and_apply
    (s : PlatformState) (ds : List Device)
    (hnodup : (ds.map (fun d => d.hap.uuid)).Nodup)
    (hfresh : ∀ d ∈ ds, d.hap.uuid ∉ cachedUuids s) :
    registryCalls (pollAccessories s ds).2 = ds.map Ev.add
    ∧ registryCalls (pollAccessories (pollAccessories s ds).1 ds).2 = ds.map Ev.update
    ∧ (∀ u ∈ cachedUuids s, u ∈ cachedUuids (pollAccessories s ds).1)
    ∧ (∀ (t : PlatformState) (es : List Device) (u : String),
        Ev.remove u ∉ (pollAccessories t es).2)
    ∧ (∀ (t : PlatformState) (d : Device),
        (d.hap.uuid ∈ cachedUuids t →
          registryCalls (pollAccessories t [d]).2 = [Ev.update d])
        ∧ (d.hap.uuid ∉ cachedUuids t →
          registryCalls (pollAccessories t [d]).2 = [Ev.add d])) := by
  have hfirst := pollAccessories_fresh ds s hfresh hnodup
  refine ⟨hfirst.1, ?_, ?_, ?_, ?_⟩
  · have hcached : ∀ d ∈ ds, d.hap.uuid ∈ cachedUuids (pollAccessories s ds).1 := by
      intro d hd
      rw [hfirst.2]
      exact List.mem_append_right _ (List.mem_map_of_mem (fun x => x.hap.uuid) hd)
    exact (pollAccessories_cached ds (pollAccessories s ds).1 hcached).1
  · exact fun u hu => pollAccessories_uuid_mono ds s u hu
  · exact fun t es u => pollAccessories_no_remove es t u
  · intro t d
    constructor
    · intro hmem
      exact (pollAccessories_cached [d] t (by simpa using hmem)).1
    · intro hmem
      exact (pollAccessories_fresh [d] t (by simpa using hmem) (by simp)).1

/-- Witness for C7 at concrete inputs: from the constructor state, polling a
one-device list issues one add, and polling again issues one update. -/
theorem pollAccessories_diff_and_apply_witness :
    registryCalls (pollAccessories initialPlatformState [demoDevice]).2 = [Ev.add demoDevice]
    ∧ registryCalls
        (pollAccessories (pollAccessories initialPlatformState [demoDevice]).1 [demoDevice]).2
        = [Ev.update demoDevice] := by
  have h := pollAccessories_diff_and_apply initialPlatformState [demoDevice]
    (by decide) (by decide)
  exact ⟨h.1, h.2.1⟩

/-- C10: updating a device whose hap uuid matches no cached accessory logs a
warning and returns, leaving the platform state (in particular the accessories
cache) unchanged and issuing no registry update call. -/
theorem updateAccessory_unknown_device
    (s : PlatformState) (device : Device)
    (h : ∀ accessory ∈ s.accessories, accessory.context.hap.uuid ≠ device.hap.uuid) :
    updateAccessory s device = (s, [Ev.logWarn]) := by
  apply updateAccessory_missing
  intro hm
  rcases List.mem_map.mp hm with ⟨a, ha, hu⟩
  exact h a ha hu

/-- Witness for C10 at concrete inputs: the constructor state has no cached
accessories, so updating the sample device warns and changes nothing. -/
theorem updateAccessory_unknown_device_witness :
    updateAccessory initialPlatformState demoDevice = (initialPlatformState, [Ev.logWarn]) :=
  updateAccessory_unknown_device initialPlatformState demoDevice (by decide)

/-! ## Device reconciler

Method `unifyDevices` (lines 822-911) and the stable-id construction.  A
sensor stable id is the template literal `adt-device-${sensor.deviceId}`,
i.e. the decimal rendering of the portal device identifier appended to the
fixed marker; the gateway and panel use the fixed ids `adt-device-0` and
`adt-device-1`.  The HAP uuid generator (`api.hap.uuid.generate`) and the
type normalizer `condenseSensorType` are external to the platform file, so
both are parameters. -/

/-- Big-endian decimal digit characters of a natural number (always at least
one digit); the reference rendering that `Nat.toDigits 10` computes. -/
def digitsRec (n : Nat) : List Char :=
  if n < 10 then [Nat.digitChar n]
  else digitsRec (n / 10) ++ [Nat.digitChar (n % 10)]
termination_by n
decreasing_by omega

/-- Numeric value of a digit character. -/
def charToDigit (c : Char) : Nat := c.toNat - 48

/-- Numeric value of a big-endian digit-character list. -/
def digitsVal (l : List Char) : Nat :=
  l.foldl (fun acc c => acc * 10 + charToDigit c) 0

/-- Digit characters decode back to their digit. -/
theorem charToDigit_digitChar : ∀ k < 10, charToDigit (Nat.digitChar k) = k := by decide

/-- The decimal rendering of a natural number decodes back to it. -/
theorem digitsVal_digitsRec : ∀ n : Nat, digitsVal (digitsRec n) = n := by
  intro n
  induction n using Nat.strong_induction_on with
  | _ n ih =>
      unfold digitsRec
      by_cases h : n < 10
      · rw [if_pos h]
        have := charToDigit_digitChar n h
        simp only [digitsVal, List.foldl_cons, List.foldl_nil]
        omega
      · rw [if_neg h]
        unfold digitsVal
        rw [List.foldl_append]
        simp only [List.foldl_cons, List.foldl_nil]
        have hrec : List.foldl (fun acc c => acc * 10 + charToDigit c) 0 (digitsRec (n / 10))
            = n / 10 := ih (n / 10) (by omega)
        have hdig := charToDigit_digitChar (n % 10) (by omega)
        omega

/-- With enough fuel, `Nat.toDigitsCore` in base 10 computes the reference
decimal rendering. -/
theorem toDigitsCore_eq_digitsRec :
    ∀ (fuel n : Nat) (ds : List Char), n < fuel →
      Nat.toDigitsCore 10 fuel n ds = digitsRec n ++ ds := by
  intro fuel
  induction fuel with
  | zero => intro n ds h; omega
  | succ f ih =>
      intro n ds h
      have hstep : Nat.toDigitsCore 10 (f + 1) n ds
          = if n / 10 = 0 then Nat.digitChar (n % 10) :: ds
            else Nat.toDigitsCore 10 f (n / 10) (Nat.digitChar (n % 10) :: ds) := rfl
      rw [hstep]
      by_cases h0 : n / 10 = 0
      · have hn : n < 10 := by omega
        rw [if_pos h0]
        unfold digitsRec
        rw [if_pos hn, Nat.mod_eq_of_lt hn]
        rfl
      · have hn : ¬ n < 10 := by omega
        rw [if_neg h0]
        conv_rhs => unfold digitsRec
        rw [if_neg hn, List.append_assoc, ih (n / 10) (Nat.digitChar (n % 10) :: ds) (by omega)]
        rfl

/-- The character data of `Nat.repr` is the reference decimal rendering. -/
theorem natRepr_data (n : Nat) : (Nat.repr n).data = digitsRec n := by
  show (Nat.toDigits 10 n).asString.data = digitsRec n
  unfold Nat.toDigits
  rw [toDigitsCore_eq_digitsRec (n + 1) n [] (by omega), List.append_nil]
  rfl

/-- Decimal renderings of distinct naturals are distinct. -/
theorem natRepr_inj {m n : Nat} (h : Nat.repr m = Nat.repr n) : m = n := by
  have hd : digitsRec m = digitsRec n := by
    rw [← natRepr_data, ← natRepr_data, h]
  calc m = digitsVal (digitsRec m) := (digitsVal_digitsRec m).symm
    _ = digitsVal (digitsRec n) := by rw [hd]
    _ = n := digitsVal_digitsRec n

/-- Stable id of a matched sensor: the template literal
`adt-device-${sensor.deviceId}` (line 892). -/
def mkSensorId (deviceId : Nat) : String :=
  "adt-device-" ++ Nat.repr deviceId

/-- Sensor stable ids are injective in the portal device identifier. -/
theorem mkSensorId_inj {a b : Nat} (h : mkSensorId a = mkSensorId b) : a = b := by
  unfold mkSensorId at h
  have hd := congrArg String.data h
  rw [String.data_append, String.data_append] at hd
  have hr : (Nat.repr a).data = (Nat.repr b).data := List.append_cancel_left hd
  exact natRepr_inj (String.ext hr)

/-- Modelled from the spec: `condenseSensorType` is defined in
`src/lib/utility.ts`, which is not part of the provided source.  The spec
scenario normalizes a portal `deviceType` of `"sensor,doorWindow"` to the
configured type `"doorWindow"`, so the model strips a leading `"sensor,"`
marker.  The general theorems below are parametric in the normalization
function; this concrete model only appears in witnesses and counterexamples. -/
def condenseSensorType (deviceType : String) : String :=
  match deviceType.data with
  | 's' :: 'e' :: 'n' :: 's' :: 'o' :: 'r' :: ',' :: rest => String.mk rest
  | _ => deviceType

/-- The match predicate of the `sensorsInfo.find` callback (lines 872-883):
exact equality on portal name, normalized type, and zone. -/
def sensorMatches (condense : String → String) (e : SensorConfigEntry)
    (sensorInfo : SensorInfo) : Bool :=
  e.adtName == sensorInfo.name
    && e.adtType == condense sensorInfo.deviceType
    && e.adtZone == sensorInfo.zone

/-- Gateway device record (lines 828-843). -/
def gatewayDevice (uuidGen : String → String) (g : GatewayInfo) : Device :=
  { id := "adt-device-0"
    name := "ADT Pulse Gateway"
    type := "gateway"
    hap := { category := "BRIDGE", uuid := uuidGen "adt-device-0" }
    manufacturer := g.manufacturer
    model := g.model
    serial := g.serialNumber
    zone := none }

/-- Security panel device record (lines 846-860). -/
def panelDevice (uuidGen : String → String) (p : PanelInfo) : Device :=
  { id := "adt-device-1"
    name := "Security Panel"
    type := "panel"
    hap := { category := "SECURITY_SYSTEM", uuid := uuidGen "adt-device-1" }
    manufacturer := p.manufacturerProvider
    model := p.typeModel
    serial := none
    zone := none }

/-- Sensor device record for a matched configuration entry (lines 892-905):
the stable id comes from the portal device identifier, the display name is
the override when present else the portal-facing name. -/
def mkSensorDevice (uuidGen : String → String) (e : SensorConfigEntry)
    (sensorInfo : SensorInfo) : Device :=
  { id := mkSensorId sensorInfo.deviceId
    name := e.name.getD e.adtName
    type := e.adtType
    hap := { category := "SENSOR", uuid := uuidGen (mkSensorId sensorInfo.deviceId) }
    manufacturer := some "ADT"
    model := some sensorInfo.deviceType
    serial := none
    zone := some e.adtZone }

/-- The sensor loop of `unifyDevices` (lines 864-907): for each configured
entry in order, find the first matching portal sensor; when none matches,
log a warning and continue with the next entry; when one matches, emit its
device record. -/
def unifySensors (uuidGen : String → String) (condense : String → String) :
    List SensorConfigEntry → List SensorInfo → List Device × List Ev
  | [], _ => ([], [])
  | e :: rest, sensors =>
      let r := unifySensors uuidGen condense rest sensors
      match sensors.find? (sensorMatches condense e) with
      | none => (r.1, Ev.logWarn :: r.2)
      | some sensorInfo => (mkSensorDevice uuidGen e sensorInfo :: r.1, r.2)

/-- Method `unifyDevices`: gateway record when gateway info is cached, then
panel record when panel info is cached, then the sensor loop over the
configured entries (`config` is the parsed configuration sensors array; the
loop only runs when the config is non-null, and `sensorsInfo` is a list that
is never null). -/
def unifyDevices (uuidGen : String → String) (condense : String → String)
    (config : Option (List SensorConfigEntry)) (d : StateData) :
    List Device × List Ev :=
  let gatewayPart : List Device :=
    match d.gatewayInfo with
    | none => []
    | some g => [gatewayDevice uuidGen g]
  let panelPart : List Device :=
    match d.panelInfo with
    | none => []
    | some p => [panelDevice uuidGen p]
  let sensorsPart : List Device × List Ev :=
    match config with
    | none => ([], [])
    | some cfgSensors => unifySensors uuidGen condense cfgSensors d.sensorsInfo
  (gatewayPart ++ panelPart ++ sensorsPart.1, sensorsPart.2)

/-! ### Reconciler lemmas -/

/-- The device list of the sensor loop is the filter-map over the configured
entries of the first-match search. -/
theorem unifySensors_eq_filterMap (uuidGen condense : String → String) :
    ∀ (entries : List SensorConfigEntry) (sensors : List SensorInfo),
      (unifySensors uuidGen condense entries sensors).1
        = entries.filterMap
            (fun e => (sensors.find? (sensorMatches condense e)).map (mkSensorDevice uuidGen e)) := by
  intro entries sensors
  induction entries with
  | nil => rfl
  | cons e rest ih =>
      unfold unifySensors
      cases hfind : sensors.find? (sensorMatches condense e) with
      | none => simpa [List.filterMap_cons, hfind] using ih
      | some sensorInfo => simpa [List.filterMap_cons, hfind] using ih

/-- The warning events of the sensor loop are exactly one per unmatched
configured entry. -/
theorem unifySensors_events (uuidGen condense : String → String) :
    ∀ (entries : List SensorConfigEntry) (sensors : List SensorInfo),
      (unifySensors uuidGen condense entries sensors).2
        = (entries.filter
            (fun e => (sensors.find? (sensorMatches condense e)).isNone)).map
              (fun _ => Ev.logWarn) := by
  intro entries sensors
  induction entries with
  | nil => rfl
  | cons e rest ih =>
      unfold unifySensors
      cases hfind : sensors.find? (sensorMatches condense e) with
      | none => simpa [List.filter_cons, hfind] using ih
      | some sensorInfo => simpa [List.filter_cons, hfind] using ih

/-- A successful first-match search splits the list at the found element, with
the predicate failing on everything before it. -/
theorem find?_first {α : Type _} (p : α → Bool) :
    ∀ (l : List α) (a : α), l.find? p = some a →
      ∃ pre suf, l = pre ++ a :: suf ∧ ∀ x ∈ pre, p x = false := by
  intro l
  induction l with
  | nil => intro a h; simp at h
  | cons b t ih =>
      intro a h
      rw [List.find?] at h
      by_cases hpb : p b = true
      · rw [hpb] at h
        have h2 : some b = some a := h
        cases h2
        exact ⟨[], t, rfl, by simp⟩
      · have hpb' : p b = false := by simpa using hpb
        rw [hpb'] at h
        rcases ih a h with ⟨pre, suf, hsplit, hpre⟩
        refine ⟨b :: pre, suf, by rw [hsplit]; rfl, ?_⟩
        intro x hx
        rcases List.mem_cons.mp hx with hx | hx
        · subst hx
          simpa using hpb
        · exact hpre x hx

/-- C5: `unifyDevices` includes a record for a configured sensor entry exactly
when some portal-reported sensor matches it exactly on name, normalized type,
and zone; the first matching portal entry is used; an unmatched entry is
skipped with one warning and causes no fatal error (all other entries are
still processed); and a matched record's stable id is derived from the portal
device identifier. -/
theorem unifyDevices_sensor_matching (uuidGen condense : String → String)
    (entries : List SensorConfigEntry) (sensors : List SensorInfo) :
    ((unifySensors uuidGen condense entries sensors).1
        = entries.filterMap
            (fun e => (sensors.find? (sensorMatches condense e)).map (mkSensorDevice uuidGen e)))
    ∧ (∀ e : SensorConfigEntry,
        (sensors.find? (sensorMatches condense e)).isSome = true
          ↔ ∃ sensorInfo ∈ sensors, sensorMatches condense e sensorInfo = true)
    ∧ (∀ (e : SensorConfigEntry) (sensorInfo : SensorInfo),
        sensors.find? (sensorMatches condense e) = some sensorInfo →
          (∃ pre suf, sensors = pre ++ sensorInfo :: suf
              ∧ ∀ x ∈ pre, sensorMatches condense e x = false)
          ∧ (mkSensorDevice uuidGen e sensorInfo).id = mkSensorId sensorInfo.deviceId)
    ∧ ((unifySensors uuidGen condense entries sensors).2
        = (entries.filter
            (fun e => (sensors.find? (sensorMatches condense e)).isNone)).map
              (fun _ => Ev.logWarn)) := by
  refine ⟨unifySensors_eq_filterMap uuidGen condense entries sensors, ?_, ?_,
    unifySensors_events uuidGen condense entries sensors⟩
  · intro e
    rw [List.find?_isSome]
  · intro e sensorInfo hfind
    exact ⟨find?_first (sensorMatches condense e) sensors sensorInfo hfind, rfl⟩

/-- A sample portal sensor matching `demoEntry` (spec scenario values). -/
def demoSensorInfo : SensorInfo :=
  { name := "Front Door", deviceType := "sensor,doorWindow", zone := 3, deviceId := 5 }

/-- A sample configured sensor entry (spec scenario values). -/
def demoEntry : SensorConfigEntry :=
  { name := none, adtName := "Front Door", adtType := "doorWindow", adtZone := 3 }

/-- A second portal sensor that matches no configured entry. -/
def straySensorInfo : SensorInfo :=
  { name := "Back Door", deviceType := "sensor,doorWindow", zone := 7, deviceId := 9 }

/-- A configured entry with no portal match (wrong zone). -/
def unmatchedEntry : SensorConfigEntry :=
  { name := none, adtName := "Front Door", adtType := "doorWindow", adtZone := 4 }

/-- Witness for C5 at concrete inputs: with the spec-modelled normalizer, the
entry matching on all three fields produces the record with the portal-derived
stable id, and the entry with the wrong zone is skipped with one warning. -/
theorem unifyDevices_sensor_matching_witness :
    (unifySensors (fun x => x) condenseSensorType [demoEntry, unmatchedEntry]
        [demoSensorInfo, straySensorInfo]).1
      = [demoEntry, unmatchedEntry].filterMap
          (fun e => (([demoSensorInfo, straySensorInfo].find?
              (sensorMatches condenseSensorType e)).map
                (mkSensorDevice (fun x => x) e)))
    ∧ (∃ sensorInfo ∈ [demoSensorInfo, straySensorInfo],
        sensorMatches condenseSensorType demoEntry sensorInfo = true)
    ∧ (∃ pre suf, [demoSensorInfo, straySensorInfo] = pre ++ demoSensorInfo :: suf
        ∧ ∀ x ∈ pre, sensorMatches condenseSensorType demoEntry x = false)
    ∧ (mkSensorDevice (fun x => x) demoEntry demoSensorInfo).id = mkSensorId 5 := by
  have h := unifyDevices_sensor_matching (fun x => x) condenseSensorType
    [demoEntry, unmatchedEntry] [demoSensorInfo, straySensorInfo]
  refine ⟨h.1, ?_, ?_, ?_⟩
  · exact (h.2.1 demoEntry).mp (by decide)
  · exact (h.2.2.1 demoEntry demoSensorInfo (by decide)).1
  · have := (h.2.2.1 demoEntry demoSensorInfo (by decide)).2
    rw [this]
    rfl

/-! ### Stable-id uniqueness -/

/-- Every id in the sensor part of the canonical list comes from the first
portal match of some configured entry. -/
theorem unifySensors_id_mem (uuidGen condense : String → String)
    (entries : List SensorConfigEntry) (sensors : List SensorInfo) (x : String)
    (hx : x ∈ (unifySensors uuidGen condense entries sensors).1.map Device.id) :
    ∃ e ∈ entries, ∃ sensorInfo,
      sensors.find? (sensorMatches condense e) = some sensorInfo
      ∧ x = mkSensorId sensorInfo.deviceId := by
  rw [unifySensors_eq_filterMap] at hx
  rcases List.mem_map.mp hx with ⟨dvc, hd, rfl⟩
  rcases List.mem_filterMap.mp hd with ⟨e, he, hfe⟩
  rcases Option.map_eq_some'.mp hfe with ⟨sensorInfo, hfind, rfl⟩
  exact ⟨e, he, sensorInfo, hfind, rfl⟩

/-- A successful match forces the configured triple to equal the portal
sensor's derived triple. -/
theorem sensorMatches_triple (condense : String → String)
    (e : SensorConfigEntry) (sensorInfo : SensorInfo)
    (h : sensorMatches condense e sensorInfo = true) :
    e.adtName = sensorInfo.name
    ∧ e.adtType = condense sensorInfo.deviceType
    ∧ e.adtZone = sensorInfo.zone := by
  unfold sensorMatches at h
  simp only [Bool.and_eq_true, beq_iff_eq] at h
  exact ⟨h.1.1, h.1.2, h.2⟩

/-- Under pairwise-distinct configured triples and pairwise-distinct portal
device identifiers, the sensor part of the canonical list has pairwise
distinct stable ids. -/
theorem unifySensors_ids_nodup (uuidGen condense : String → String) :
    ∀ (entries : List SensorConfigEntry) (sensors : List SensorInfo),
      (sensors.map SensorInfo.deviceId).Nodup →
      entries.Pairwise (fun a b =>
        (a.adtName, a.adtType, a.adtZone) ≠ (b.adtName, b.adtType, b.adtZone)) →
      ((unifySensors uuidGen condense entries sensors).1.map Device.id).Nodup := by
  intro entries
  induction entries with
  | nil => intro sensors _ _; simp [unifySensors]
  | cons e rest ih =>
      intro sensors hdev hpw
      rw [List.pairwise_cons] at hpw
      unfold unifySensors
      cases hfind : sensors.find? (sensorMatches condense e) with
      | none => exact ih sensors hdev hpw.2
      | some sensorInfo =>
          rw [List.map_cons, List.nodup_cons]
          refine ⟨?_, ih sensors hdev hpw.2⟩
          intro hmem
          rcases unifySensors_id_mem uuidGen condense rest sensors _ hmem with
            ⟨e', he', sensorInfo', hfind', hid⟩
          have hdd : sensorInfo.deviceId = sensorInfo'.deviceId := mkSensorId_inj hid
          have hsame : sensorInfo = sensorInfo' :=
            List.inj_on_of_nodup_map hdev (List.mem_of_find?_eq_some hfind)
              (List.mem_of_find?_eq_some hfind') hdd
          have hm := sensorMatches_triple condense e sensorInfo (List.find?_some hfind)
          have hm' := sensorMatches_triple condense e' sensorInfo' (List.find?_some hfind')
          apply hpw.1 e' he'
          rw [hm.1, hm.2.1, hm.2.2, hm'.1, hm'.2.1, hm'.2.2, hsame]

/-- C6 amended: provided the portal-reported sensors carry pairwise-distinct
device identifiers none of which is 0 or 1, and the configured sensor entries
are pairwise distinct on the (portal name, type, zone) matching triple, the
canonical device list produced by `unifyDevices` contains no two records with
the same stable id. -/
theorem unifyDevices_ids_nodup (uuidGen condense : String → String)
    (cfg : List SensorConfigEntry) (sd : StateData)
    (hdev : (sd.sensorsInfo.map SensorInfo.deviceId).Nodup)
    (hge : ∀ sensorInfo ∈ sd.sensorsInfo, 2 ≤ sensorInfo.deviceId)
    (hpw : cfg.Pairwise (fun a b =>
      (a.adtName, a.adtType, a.adtZone) ≠ (b.adtName, b.adtType, b.adtZone))) :
    (((unifyDevices uuidGen condense (some cfg) sd).1).map Device.id).Nodup := by
  have hs := unifySensors_ids_nodup uuidGen condense cfg sd.sensorsInfo hdev hpw
  have hid0 : mkSensorId 0 = "adt-device-0" := by decide
  have hid1 : mkSensorId 1 = "adt-device-1" := by decide
  have hmem : ∀ x ∈ (unifySensors uuidGen condense cfg sd.sensorsInfo).1.map Device.id,
      x ≠ "adt-device-0" ∧ x ≠ "adt-device-1" := by
    intro x hx
    rcases unifySensors_id_mem uuidGen condense cfg sd.sensorsInfo x hx with
      ⟨e, _, sensorInfo, hfind, rfl⟩
    have h2 : 2 ≤ sensorInfo.deviceId := hge sensorInfo (List.mem_of_find?_eq_some hfind)
    constructor
    · intro hmk
      have : sensorInfo.deviceId = 0 := mkSensorId_inj (hmk.trans hid0.symm)
      omega
    · intro hmk
      have : sensorInfo.deviceId = 1 := mkSensorId_inj (hmk.trans hid1.symm)
      omega
  cases hg : sd.gatewayInfo with
  | none =>
      cases hp : sd.panelInfo with
      | none => simpa [unifyDevices, hg, hp] using hs
      | some p =>
          simp only [unifyDevices, hg, hp, List.nil_append, List.singleton_append,
            List.map_cons, List.nodup_cons]
          exact ⟨fun hx => ((hmem _ hx).2 rfl).elim, hs⟩
  | some g =>
      cases hp : sd.panelInfo with
      | none =>
          simp only [unifyDevices, hg, hp, List.nil_append, List.singleton_append,
            List.map_cons, List.nodup_cons]
          exact ⟨fun hx => ((hmem _ hx).1 rfl).elim, hs⟩
      | some p =>
          simp only [unifyDevices, hg, hp, List.cons_append, List.nil_append,
            List.map_cons, List.nodup_cons, List.mem_cons]
          refine ⟨?_, fun hx => ((hmem _ hx).2 rfl).elim, hs⟩
          rintro (h01 | hx)
          · exact absurd (show ("adt-device-0" : String) = "adt-device-1" from h01) (by decide)
          · exact (hmem _ hx).1 rfl

/-- A second configured entry with the same matching triple as `demoEntry`
(differing only in the display-name override). -/
def dupEntry : SensorConfigEntry :=
  { name := some "Door A", adtName := "Front Door", adtType := "doorWindow", adtZone := 3 }

/-- Counterexample to C6 as stated: two configured entries with the same
(name, type, zone) triple both match the single portal sensor, so the
canonical list carries the stable id `adt-device-5` twice. -/
theorem unifyDevices_dup_id_counterexample :
    ((unifyDevices (fun x => x) condenseSensorType (some [demoEntry, dupEntry])
        { gatewayInfo := none, panelInfo := none, panelStatus := none,
          sensorsInfo := [demoSensorInfo], sensorsStatus := [],
          syncCode := "1-0-0" }).1.map Device.id
      = ["adt-device-5", "adt-device-5"])
    ∧ ¬ (((unifyDevices (fun x => x) condenseSensorType (some [demoEntry, dupEntry])
        { gatewayInfo := none, panelInfo := none, panelStatus := none,
          sensorsInfo := [demoSensorInfo], sensorsStatus := [],
          syncCode := "1-0-0" }).1.map Device.id).Nodup) := by
  constructor
  · decide
  · decide

/-- A sample cached-data record carrying gateway and panel info plus two
portal sensors. -/
def demoStateData : StateData :=
  { gatewayInfo := some { manufacturer := some "ADT", model := some "iHub", serialNumber := some "S1" }
    panelInfo := some { manufacturerProvider := some "ADT", typeModel := some "TSSC" }
    panelStatus := none
    sensorsInfo := [demoSensorInfo, straySensorInfo]
    sensorsStatus := []
    syncCode := "1-0-0" }

/-- Witness for the amended C6 at concrete inputs: with distinct configured
triples and distinct portal identifiers at least 2, the full canonical list
(gateway, panel, two sensors) has pairwise-distinct stable ids. -/
theorem unifyDevices_ids_nodup_witness :
    (((unifyDevices (fun x => x) condenseSensorType
        (some [demoEntry, unmatchedEntry]) demoStateData).1).map Device.id).Nodup := by
  apply unifyDevices_ids_nodup
  · decide
  · decide
  · decide

/-! ## Sync scheduler

Method `synchronize` (lines 449-557) installs a repeating timer whose
callback is the sync tick.  The callback is modelled in two layers: the
guard-and-cleanup wrapper `tickWith` (the `isSyncing` check at line 452, the
null-instance check at line 457, the `try`/`catch`/`finally` of lines
464-555), and the normal-path body `syncBody` (lines 468-548).  The wrapper
is parametric in the body: a body that throws at any point corresponds to a
body function returning the partially mutated state together with the
error-log events of the `catch` block, so the wrapper theorems cover every
exit path including exceptions. -/

/-- Payload of a successful login: the serialized `portalVersion` info and
the verdict of the `detectedNewPortalVersion` callback. -/
structure LoginOk where
  portalVersionSerialized : String
  detectorSays : Bool
deriving DecidableEq

/-- Oracle values observed by one tick: whether `#instance` is null, the two
`isAuthenticated()` reads (line 469 and line 532), the login outcome
(`some` on success), and the two `Date.now()` reads (line 481 and line 538). -/
structure TickEnv where
  instanceNull : Bool
  isAuthBefore : Bool
  loginResult : Option LoginOk
  isAuthAfter : Bool
  nowAtLogin : Int
  now : Int
deriving DecidableEq

/-- Pacing checks of lines 540-548: fire the keep-alive and sync-check
sub-tasks, without awaiting them, when their intervals have elapsed. -/
def firePacedTasks (c : Constants) (env : TickEnv) (s : PlatformState) : List Ev :=
  let evs1 := if (c.intervalTimestamps.adtKeepAlive : Int) ≤ env.now - s.lastRunOnAdtKeepAlive
              then [Ev.fireKeepAlive] else []
  let evs2 := if (c.intervalTimestamps.adtSyncCheck : Int) ≤ env.now - s.lastRunOnAdtSyncCheck
              then [Ev.fireSyncCheck] else []
  evs1 ++ evs2

/-- Normal-path body of the sync tick (lines 468-548).  When unauthenticated
and not already logging in, attempt the login: on success stamp both sub-task
timestamps and run the portal-version payload through the deduplicated
detector; on failure increment the failed-login counter and log.  Then, still
in the unauthenticated section, if the counter has reached the maximum, sleep
for the cooldown and reset the counter to zero, returning early; return early
as well when still unauthenticated.  Finally run the pacing checks. -/
def syncBody (c : Constants) (hash : String → String) (env : TickEnv)
    (s0 : PlatformState) : PlatformState × List Ev :=
  if env.isAuthBefore then
    (s0, firePacedTasks c env s0)
  else
    let loginStep : PlatformState × List Ev :=
      if s0.activity.isLoggingIn then (s0, [])
      else
        let sA := { s0 with activity.isLoggingIn := true }
        match env.loginResult with
        | some ok =>
            let sB := { sA with lastRunOnAdtKeepAlive := env.nowAtLogin,
                                lastRunOnAdtSyncCheck := env.nowAtLogin }
            let step := reportIfNew hash sB.reportedHashes ok.portalVersionSerialized
              ok.detectorSays
            let sC := { sB with reportedHashes := step.1 }
            let evs := if step.2.1
                       then [Ev.detectorInvoke (hash ok.portalVersionSerialized)] else []
            ({ sC with activity.isLoggingIn := false }, evs)
        | none =>
            let sB := { sA with eventCounters.failedLogins :=
              sA.eventCounters.failedLogins + 1 }
            ({ sB with activity.isLoggingIn := false }, [Ev.logError])
    let s1 := loginStep.1
    if c.maxLoginRetries ≤ s1.eventCounters.failedLogins then
      ({ s1 with eventCounters.failedLogins := 0 },
       loginStep.2 ++ [Ev.sleepCall c.intervalTimestamps.suspendSyncing])
    else if env.isAuthAfter then
      (s1, loginStep.2 ++ firePacedTasks c env s1)
    else
      (s1, loginStep.2)

/-- Guard-and-cleanup wrapper of the tick callback: skip entirely when a sync
is already in progress; warn and return when the instance is null; otherwise
raise the `isSyncing` flag, run the body, and lower the flag in the `finally`
step that runs on every exit path. -/
def tickWith (body : PlatformState → PlatformState × List Ev) (instanceNull : Bool)
    (s : PlatformState) : PlatformState × List Ev :=
  if s.activity.isSyncing then (s, [])
  else if instanceNull then (s, [Ev.logWarn])
  else
    let s1 := { s with activity.isSyncing := true }
    let r := body s1
    ({ r.1 with activity.isSyncing := false }, r.2)

/-- One full sync tick: the wrapper applied to the normal-path body. -/
def synchronizeTick (c : Constants) (hash : String → String) (env : TickEnv)
    (s : PlatformState) : PlatformState × List Ev :=
  tickWith (syncBody c hash env) env.instanceNull s

/-! ## Sync-check sub-task and information refresh -/

/-- One fetched payload fed to the change detector: its serialized form and
the category detector verdict. -/
structure FetchResult where
  serialized : String
  detectorSays : Bool
deriving DecidableEq

/-- Oracle values of the five concurrent fetches of
`fetchUpdatedInformation` (lines 697-703): `some` on success. -/
structure FetchEnv where
  gateway : Option (GatewayInfo × FetchResult)
  panel : Option (PanelInfo × FetchResult)
  panelStatus : Option (String × FetchResult)
  sensorsInfo : Option (List SensorInfo × FetchResult)
  sensorsStatus : Option (List String × FetchResult)
deriving DecidableEq

/-- The shared dedup-and-notify tail of each resource block: run the payload
through `reportIfNew` on the reported-hash list, emitting the detector
invocation when it happens. -/
def applyDetection (hash : String → String) (s : PlatformState) (r : FetchResult) :
    PlatformState × List Ev :=
  let step := reportIfNew hash s.reportedHashes r.serialized r.detectorSays
  ({ s with reportedHashes := step.1 },
   if step.2.1 then [Ev.detectorInvoke (hash r.serialized)] else [])

/-- Method `fetchUpdatedInformation` (lines 687-811): for each of the five
requests that succeeded, store the payload in its data slot and run it
through the deduplicated detector; then consolidate devices with
`unifyDevices` and update them all with `pollAccessories`. -/
def fetchUpdatedInformation (hash uuidGen condense : String → String)
    (config : Option (List SensorConfigEntry)) (fenv : FetchEnv)
    (s : PlatformState) : PlatformState × List Ev :=
  let r1 : PlatformState × List Ev :=
    match fenv.gateway with
    | none => (s, [])
    | some (info, r) => applyDetection hash { s with data.gatewayInfo := some info } r
  let r2 : PlatformState × List Ev :=
    match fenv.panel with
    | none => (r1.1, [])
    | some (info, r) => applyDetection hash { r1.1 with data.panelInfo := some info } r
  let r3 : PlatformState × List Ev :=
    match fenv.panelStatus with
    | none => (r2.1, [])
    | some (info, r) => applyDetection hash { r2.1 with data.panelStatus := some info } r
  let r4 : PlatformState × List Ev :=
    match fenv.sensorsInfo with
    | none => (r3.1, [])
    | some (sensors, r) => applyDetection hash { r3.1 with data.sensorsInfo := sensors } r
  let r5 : PlatformState × List Ev :=
    match fenv.sensorsStatus with
    | none => (r4.1, [])
    | some (sensors, r) => applyDetection hash { r4.1 with data.sensorsStatus := sensors } r
  let unified := unifyDevices uuidGen condense config r5.1.data
  let polled := pollAccessories r5.1 unified.1
  (polled.1, r1.2 ++ r2.2 ++ r3.2 ++ r4.2 ++ r5.2 ++ unified.2 ++ polled.2)

/-- Oracle values observed by one sync-check run: whether the instance is
null, the check outcome (`some` revision code on success), and the
`Date.now()` read of line 667. -/
structure SyncCheckEnv where
  instanceNull : Bool
  result : Option String
  now : Int
deriving DecidableEq

/-- Method `synchronizeSyncCheck` (lines 622-676), parametric in the awaited
refresh (`fetchUpdatedInformation` in the source): skip when already
checking; warn when the instance is null; otherwise raise the guard, and on a
successful check with a revision code different from the cached one, cache
the new code and run the refresh to completion (its state changes land before
anything else runs); stamp the last-run timestamp on success and failure
alike; lower the guard in the `finally` step, recorded by the trailing
`guardCleared` marker. -/
def synchronizeSyncCheck (fetchUpd : PlatformState → PlatformState × List Ev)
    (env : SyncCheckEnv) (s : PlatformState) : PlatformState × List Ev :=
  if s.activity.isAdtSyncChecking then (s, [])
  else if env.instanceNull then (s, [Ev.logWarn])
  else
    let s1 := { s with activity.isAdtSyncChecking := true }
    let body : PlatformState × List Ev :=
      match env.result with
      | some newCode =>
          if newCode ≠ s1.data.syncCode then
            let sA := { s1 with data.syncCode := newCode }
            let r := fetchUpd sA
            (r.1, Ev.logDebug :: Ev.refreshCall :: r.2)
          else (s1, [Ev.logDebug])
      | none => (s1, [Ev.logError])
    let s2 := { body.1 with lastRunOnAdtSyncCheck := env.now }
    ({ s2 with activity.isAdtSyncChecking := false }, body.2 ++ [Ev.guardCleared])

/-! ### Scheduler theorems -/

/-- C2: at most one sync is in progress at any time.  A tick that begins
while the sync-in-progress flag is set returns immediately with no state
change and no effect; a tick that begins with the flag clear ends with the
flag clear, for every body — including a body that throws at an arbitrary
point with arbitrary partial mutations, since the flag is lowered in the
`finally` step of the wrapper. -/
theorem synchronize_tick_guard
    (body : PlatformState → PlatformState × List Ev) (instanceNull : Bool)
    (s : PlatformState) :
    (s.activity.isSyncing = true → tickWith body instanceNull s = (s, []))
    ∧ (s.activity.isSyncing = false →
        (tickWith body instanceNull s).1.activity.isSyncing = false) := by
  constructor
  · intro h
    unfold tickWith
    rw [h, if_pos rfl]
  · intro h
    unfold tickWith
    rw [h]
    rw [if_neg Bool.false_ne_true]
    by_cases hin : instanceNull = true
    · rw [if_pos hin]
      exact h
    · rw [if_neg hin]

/-- The constructor state with the sync-in-progress flag raised. -/
def syncingBusyState : PlatformState :=
  { initialPlatformState with activity.isSyncing := true }

/-- Tick oracle for a successful login on an unauthenticated session. -/
def successTickEnv : TickEnv :=
  { instanceNull := false
    isAuthBefore := false
    loginResult := some { portalVersionSerialized := "pv", detectorSays := true }
    isAuthAfter := true
    nowAtLogin := 1000
    now := 1000 }

/-- Tick oracle for a failed login on an unauthenticated session. -/
def failTickEnv : TickEnv :=
  { successTickEnv with loginResult := none }

/-- Witness for C2 at concrete inputs: a tick entered with the flag raised is
a no-op, and a completed tick from the constructor state leaves the flag
lowered. -/
theorem synchronize_tick_guard_witness :
    tickWith (syncBody platformConstants (fun x => x) successTickEnv) false syncingBusyState
      = (syncingBusyState, [])
    ∧ (tickWith (syncBody platformConstants (fun x => x) successTickEnv) false
        initialPlatformState).1.activity.isSyncing = false :=
  ⟨(synchronize_tick_guard (syncBody platformConstants (fun x => x) successTickEnv)
      false syncingBusyState).1 rfl,
   (synchronize_tick_guard (syncBody platformConstants (fun x => x) successTickEnv)
      false initialPlatformState).2 rfl⟩

/-- The constructor state after two failed login attempts. -/
def twoFailuresState : PlatformState :=
  { initialPlatformState with eventCounters := { failedLogins := 2 } }

/-- C1, divergence evaluation: after two failed logins, a tick whose login
attempt succeeds leaves the failed-login counter at 2 — the success branch
(lines 478-498) stamps the sub-task timestamps and runs the portal-version
detection but never writes the counter, while the claim and spec say it is
reset to zero.  The cooldown half of the claim does hold: a third failed
login reaches the maximum of 3, sleeps for the full cooldown, and resets the
counter to zero. -/
theorem synchronize_login_success_keeps_counter :
    ((synchronizeTick platformConstants (fun x => x) successTickEnv
        twoFailuresState).1.eventCounters.failedLogins = 2)
    ∧ ((synchronizeTick platformConstants (fun x => x) failTickEnv
        twoFailuresState).1.eventCounters.failedLogins = 0)
    ∧ Ev.sleepCall 1800000 ∈ (synchronizeTick platformConstants (fun x => x) failTickEnv
        twoFailuresState).2 := by
  decide

/-- C4: for every successful sync-check result, when the returned revision
code differs from the cached one the cache is updated to the new code and
exactly one full information refresh is triggered, its state effects landing
and the `guardCleared` marker coming last (the refresh is awaited inside the
guarded region); when the returned code equals the cached one, no refresh is
triggered and the cache is unchanged; the in-flight guard is lowered at the
end either way.  The refresh is parametric, assumed not to emit the refresh
marker itself and to leave the revision cache alone, as
`fetchUpdatedInformation` does. -/
theorem syncCheck_refresh_exactly_once
    (fetchUpd : PlatformState → PlatformState × List Ev)
    (env : SyncCheckEnv) (s : PlatformState) (code : String)
    (hguard : s.activity.isAdtSyncChecking = false)
    (hinst : env.instanceNull = false)
    (hres : env.result = some code)
    (hf : ∀ t, Ev.refreshCall ∉ (fetchUpd t).2)
    (hfc : ∀ t, ((fetchUpd t).1).data.syncCode = t.data.syncCode) :
    (code ≠ s.data.syncCode →
        (synchronizeSyncCheck fetchUpd env s).1.data.syncCode = code
        ∧ (synchronizeSyncCheck fetchUpd env s).2.count Ev.refreshCall = 1
        ∧ (synchronizeSyncCheck fetchUpd env s).2.getLast? = some Ev.guardCleared)
    ∧ (code = s.data.syncCode →
        (synchronizeSyncCheck fetchUpd env s).1.data.syncCode = s.data.syncCode
        ∧ (synchronizeSyncCheck fetchUpd env s).2.count Ev.refreshCall = 0)
    ∧ (synchronizeSyncCheck fetchUpd env s).1.activity.isAdtSyncChecking = false := by
  unfold synchronizeSyncCheck
  rw [hguard, if_neg Bool.false_ne_true, hinst, if_neg Bool.false_ne_true, hres]
  dsimp only
  refine ⟨?_, ?_, ?_⟩
  · intro hne
    rw [if_pos hne]
    refine ⟨hfc _, ?_, List.getLast?_concat _⟩
    have hcnt : ∀ t, ((fetchUpd t).2).count Ev.refreshCall = 0 :=
      fun t => List.count_eq_zero.mpr (hf t)
    simp [List.count_append, List.count_cons, hcnt]
  · intro heq
    rw [if_neg (fun hne => hne heq)]
    exact ⟨rfl, by simp [List.count_append]⟩
  · rfl

/-- Sync-check oracle returning revision code `2-1-0`. -/
def newCodeEnv : SyncCheckEnv :=
  { instanceNull := false, result := some "2-1-0", now := 5 }

/-- Sync-check oracle returning revision code `1-0-0`. -/
def sameCodeEnv : SyncCheckEnv :=
  { instanceNull := false, result := some "1-0-0", now := 5 }

/-- Witness for C4 at concrete inputs: from the constructor state (cached
code `1-0-0`), a check returning `2-1-0` caches the new code, triggers
exactly one refresh, and releases the guard after it; a check returning the
cached `1-0-0` triggers none. -/
theorem syncCheck_refresh_exactly_once_witness :
    ((synchronizeSyncCheck (fun t => (t, [])) newCodeEnv
        initialPlatformState).1.data.syncCode = "2-1-0"
      ∧ (synchronizeSyncCheck (fun t => (t, [])) newCodeEnv
          initialPlatformState).2.count Ev.refreshCall = 1
      ∧ (synchronizeSyncCheck (fun t => (t, [])) newCodeEnv
          initialPlatformState).2.getLast? = some Ev.guardCleared)
    ∧ (synchronizeSyncCheck (fun t => (t, [])) sameCodeEnv
        initialPlatformState).2.count Ev.refreshCall = 0 := by
  have h1 := syncCheck_refresh_exactly_once (fun t => (t, [])) newCodeEnv
    initialPlatformState "2-1-0" rfl rfl rfl (fun t => by simp) (fun t => rfl)
  have h2 := syncCheck_refresh_exactly_once (fun t => (t, [])) sameCodeEnv
    initialPlatformState "1-0-0" rfl rfl rfl (fun t => by simp) (fun t => rfl)
  exact ⟨h1.1 (by decide), (h2.2.1 rfl).2⟩

/-! ## Configuration schema and launch handler

The zod schema `platformConfig` (schema lines 944-979) and the
`didFinishLaunching` callback of the constructor (lines 241-282). -/

/-- The parsed platform configuration: exactly the keys produced by the
`platformConfig` schema (zod strips unknown input keys, so the parsed data
has no others).  `speed` is one of the literal numbers 1, 0.75, 0.5, 0.25,
modelled as a rational. -/
structure PlatformConfigData where
  platform : String
  name : String
  subdomain : String
  username : String
  password : String
  fingerprint : String
  mode : String
  speed : Rat
  sensors : List SensorConfigEntry
deriving DecidableEq

/-- Validity of one configured sensor entry per the schema `sensors` element:
optional display name of length 1-50, portal name of length 1-100, type among
the eight sensor literals, zone in 1-99. -/
def validSensorEntry (e : SensorConfigEntry) : Bool :=
  (match e.name with
   | none => true
   | some n => decide (1 ≤ n.length) && decide (n.length ≤ 50))
  && decide (1 ≤ e.adtName.length) && decide (e.adtName.length ≤ 100)
  && (e.adtType == "co" || e.adtType == "doorWindow" || e.adtType == "fire"
      || e.adtType == "flood" || e.adtType == "glass" || e.adtType == "motion"
      || e.adtType == "panic" || e.adtType == "temperature")
  && decide (1 ≤ e.adtZone) && decide (e.adtZone ≤ 99)

/-- Validity of a platform configuration per the `platformConfig` schema (the
four admissible speed literals 1, 0.75, 0.5, 0.25 written as normalized
rationals). -/
def validPlatformConfig (c : PlatformConfigData) : Bool :=
  c.platform == "ADTPulse"
  && decide (1 ≤ c.name.length) && decide (c.name.length ≤ 50)
  && (c.subdomain == "portal" || c.subdomain == "portal-ca")
  && decide (1 ≤ c.username.length) && decide (c.username.length ≤ 100)
  && decide (1 ≤ c.password.length) && decide (c.password.length ≤ 300)
  && decide (1 ≤ c.fingerprint.length) && decide (c.fingerprint.length ≤ 5120)
  && (c.mode == "normal" || c.mode == "paused" || c.mode == "reset")
  && (c.speed == mkRat 1 1 || c.speed == mkRat 3 4
      || c.speed == mkRat 1 2 || c.speed == mkRat 1 4)
  && c.sensors.all validSensorEntry
  && decide (1 ≤ c.sensors.length) && decide (c.sensors.length ≤ 148)

/-- Field access `this.#config.pause` (line 262) on the validated config: the
`platformConfig` schema declares no `pause` key and zod strips unknown keys
from its parsed output, so the access yields `undefined` on every validated
configuration, and `undefined === true` is false. -/
def configPauseField (_config : PlatformConfigData) : Option Bool := none

/-- Field access `this.#config.reset` (line 269): as with `pause`, the schema
declares no `reset` key, so the access yields `undefined` on every validated
configuration. -/
def configResetField (_config : PlatformConfigData) : Option Bool := none

/-- Constants as a function of the parsed configuration: the constructor
assigns the literal `platformConstants` (lines 187-195) before and
independently of the configuration, and no configuration value — in
particular not `speed` — ever reaches `#constants` or the places the
intervals are consumed (lines 523, 541, 546, 556). -/
def constructorConstants (_config : PlatformConfigData) : Constants :=
  platformConstants

/-- The removal loop of the reset branch (lines 273-275): iterate the cached
accessories from the last index down to 0, removing each. -/
def removeAllAccessories : PlatformState → List Accessory → PlatformState × List Ev
  | s, [] => (s, [])
  | s, accessory :: rest =>
      let r := removeAccessory s accessory
      let r2 := removeAllAccessories r.1 rest
      (r2.1, r.2 ++ r2.2)

/-- Outcome of the `didFinishLaunching` callback. -/
structure LaunchResult where
  state : PlatformState
  events : List Ev
  syncStarted : Bool
deriving DecidableEq

/-- The `didFinishLaunching` callback (lines 241-282) after a successful
config parse: when `config.pause === true`, warn and stop; when
`config.reset === true`, warn, remove every cached accessory in reverse
index order, and stop; otherwise start synchronization. -/
def didFinishLaunching (config : PlatformConfigData) (s : PlatformState) : LaunchResult :=
  if configPauseField config = some true then
    { state := s, events := [Ev.logWarn], syncStarted := false }
  else if configResetField config = some true then
    let r := removeAllAccessories s s.accessories.reverse
    { state := r.1, events := Ev.logWarn :: r.2, syncStarted := false }
  else
    { state := s, events := [], syncStarted := true }

/-- A validated configuration selecting reset mode. -/
def resetModeConfig : PlatformConfigData :=
  { platform := "ADTPulse"
    name := "ADT Pulse"
    subdomain := "portal"
    username := "user@example.com"
    password := "secret"
    fingerprint := "fp"
    mode := "reset"
    speed := mkRat 1 1
    sensors := [demoEntry] }

/-- The constructor state with one cached accessory. -/
def oneAccessoryState : PlatformState :=
  { initialPlatformState with accessories := [{ displayName := "Front Door", context := demoDevice }] }

/-- C8, divergence evaluation: on a validated configuration with
`mode: "reset"` and one cached accessory, the launch handler issues zero
remove calls and starts synchronization.  The branch guarding the removal
loop tests `this.#config.reset === true`, but the validated config produced
by `platformConfig` carries a `mode` field and no `reset` key (zod strips
unknown keys), so the test is false for every validated configuration and
the reset teardown is unreachable, contradicting the claim of one remove per
cached accessory and no synchronization. -/
theorem reset_mode_issues_no_removes :
    validPlatformConfig resetModeConfig = true
    ∧ resetModeConfig.mode = "reset"
    ∧ (didFinishLaunching resetModeConfig oneAccessoryState).events = []
    ∧ (didFinishLaunching resetModeConfig oneAccessoryState).syncStarted = true
    ∧ (didFinishLaunching resetModeConfig oneAccessoryState).state = oneAccessoryState := by
  refine ⟨by decide, rfl, rfl, rfl, rfl⟩

/-- A validated configuration with speed multiplier 0.25. -/
def quarterSpeedConfig : PlatformConfigData :=
  { resetModeConfig with mode := "normal", speed := mkRat 1 4 }

/-- A validated configuration with speed multiplier 1. -/
def fullSpeedConfig : PlatformConfigData :=
  { resetModeConfig with mode := "normal", speed := mkRat 1 1 }

/-- C9, divergence evaluation: the interval constants the scheduler runs on
are a fixed literal record, identical for every configuration — evaluated
here at validated configs with speeds 0.25 and 1 — so the configured speed
multiplier scales none of them, contradicting the claim that it scales all
of them. -/
theorem speed_does_not_scale_intervals :
    validPlatformConfig quarterSpeedConfig = true
    ∧ validPlatformConfig fullSpeedConfig = true
    ∧ quarterSpeedConfig.speed ≠ fullSpeedConfig.speed
    ∧ (∀ c : PlatformConfigData, constructorConstants c = platformConstants)
    ∧ constructorConstants quarterSpeedConfig = constructorConstants fullSpeedConfig
    ∧ platformConstants.intervalTimestamps.synchronize = 1000
    ∧ platformConstants.intervalTimestamps.adtSyncCheck = 3000
    ∧ platformConstants.intervalTimestamps.adtKeepAlive = 538000
    ∧ platformConstants.intervalTimestamps.suspendSyncing = 1800000 := by
  exact ⟨by decide, by decide, by decide, fun c => rfl, rfl, rfl, rfl, rfl, rfl⟩

end AdtPulse
